import Mathlib

/-!
Shallow embedding of the job-lifecycle and messaging core of the
multi-agent-expert-sourcing backend, together with proofs of the spec's
testable properties.

The embedding follows the Python sources:
* `backend/services/cv_status_service.py` (status store),
* `backend/services/nats_service.py` (event bus client),
* `backend/core/nats.py` (connection manager),
* `backend/api/v1/nats.py` (health probe),
* `backend/app_agents/cv_agents.py` (admission guardrail),
* `backend/services/cv_service.py` (upload service).

Wall-clock timestamps are threaded explicitly as `Int` seconds; external
transport and agent calls are modelled as `Except String` outcomes passed
in as parameters (an `.error` value models the Python call raising).
-/

/-! ## Status store (`cv_status_service.py`) -/

/-- The `CVProcessingStage` enumeration from `cv_status_service.py`. -/
inductive CVProcessingStage
  | upload_started
  | file_validation
  | guardrail_validation
  | file_preparation
  | openai_upload
  | cv_parsing
  | profile_enrichment
  | skills_extraction
  | gap_analysis
  | finalizing
  | completed
  | error
  deriving DecidableEq, Repr

open CVProcessingStage

/-- The `.value` string of each stage. -/
def stageValue : CVProcessingStage → String
  | upload_started => "upload_started"
  | file_validation => "file_validation"
  | guardrail_validation => "guardrail_validation"
  | file_preparation => "file_preparation"
  | openai_upload => "openai_upload"
  | cv_parsing => "cv_parsing"
  | profile_enrichment => "profile_enrichment"
  | skills_extraction => "skills_extraction"
  | gap_analysis => "gap_analysis"
  | finalizing => "finalizing"
  | completed => "completed"
  | error => "error"

/-- The `message` column of the static `_stage_messages` table. -/
def stageMessage : CVProcessingStage → String
  | upload_started => "Starting CV upload..."
  | file_validation => "Validating your CV file..."
  | guardrail_validation => "Checking document format..."
  | file_preparation => "Preparing your CV for analysis..."
  | openai_upload => "Uploading to AI processing system..."
  | cv_parsing => "Analyzing your CV content..."
  | profile_enrichment => "Enhancing your professional profile..."
  | skills_extraction => "Identifying your skills and expertise..."
  | gap_analysis => "Analyzing profile completeness..."
  | finalizing => "Finalizing your profile analysis..."
  | completed => "CV analysis complete! Your feedback is ready."
  | error => "Something went wrong. Please try again."

/-- The `progress` column of the static `_stage_messages` table.
The table covers every member of the enumeration, so the
`{"message": "Processing...", "progress": 50}` fallback of
`update_status` is unreachable for enum members. -/
def stageProgress : CVProcessingStage → Nat
  | upload_started => 5
  | file_validation => 10
  | guardrail_validation => 15
  | file_preparation => 20
  | openai_upload => 30
  | cv_parsing => 50
  | profile_enrichment => 65
  | skills_extraction => 75
  | gap_analysis => 85
  | finalizing => 95
  | completed => 100
  | error => 0

/-- A stored status update (`CVStatusUpdate.to_dict()` record). -/
structure CVStatusUpdate where
  stage : CVProcessingStage
  message : String
  progress : Nat
  details : String
  timestamp : Int
  deriving DecidableEq, Repr

/-- The in-memory `_status_storage` dict, as an association list keyed by
session id.  Python dict keys are unique; theorems that need this state it
as a `Nodup` hypothesis on the key list. -/
abbrev Storage := List (String × List CVStatusUpdate)

/-- First-match association-list lookup (Python dict read). -/
def alistLookup {β : Type} : List (String × β) → String → Option β
  | [], _ => none
  | (k, v) :: rest, sid => if k = sid then some v else alistLookup rest sid

/-- `_status_storage[session_id]` read returning `none` when absent. -/
def lookupHistory (st : Storage) (sid : String) : Option (List CVStatusUpdate) :=
  alistLookup st sid

/-- Python dict assignment `_status_storage[session_id] = hist`:
replaces the entry if the key is present, otherwise appends it. -/
def setHistory : Storage → String → List CVStatusUpdate → Storage
  | [], sid, hist => [(sid, hist)]
  | (k, v) :: rest, sid, hist =>
    if k = sid then (k, hist) :: rest else (k, v) :: setHistory rest sid hist

/-- The `[-20:]` trim of `update_status`: when more than 20 entries are
stored, keep only the last 20. -/
def trimTo20 (l : List CVStatusUpdate) : List CVStatusUpdate :=
  if l.length > 20 then l.drop (l.length - 20) else l

/-- `CVStatusManager.update_status`: build the update from the static
table, append it to the session history (creating it if absent) and trim
the history to the last 20 entries (`[-20:]`).  Returns the new storage
and the returned `CVStatusUpdate`. -/
def update_status (st : Storage) (sid : String) (stage : CVProcessingStage)
    (details : String) (now : Int) : Storage × CVStatusUpdate :=
  (setHistory st sid
      (trimTo20 (((lookupHistory st sid).getD []) ++
        [⟨stage, stageMessage stage, stageProgress stage, details, now⟩])),
    ⟨stage, stageMessage stage, stageProgress stage, details, now⟩)

/-- `CVStatusManager.get_current_status`: `none` when the session id is
absent or its history is empty, otherwise the last entry (`[-1]`). -/
def get_current_status (st : Storage) (sid : String) : Option CVStatusUpdate :=
  match lookupHistory st sid with
  | none => none
  | some l => l.getLast?

/-- The dict returned to the frontend by `get_status_for_frontend`. -/
structure FrontendStatus where
  status : String
  message : String
  progress : Nat
  details : String
  timestamp : Int
  deriving DecidableEq, Repr

/-- `get_status_for_frontend`: the caller-facing wrapper.  Synthesizes
the "upload started, progress 5" default when the session is unknown
instead of propagating a not-found error. -/
def get_status_for_frontend (st : Storage) (sid : String) (now : Int) :
    FrontendStatus :=
  match get_current_status st sid with
  | none =>
    ⟨"upload_started", "Starting CV upload...", 5,
      "Processing is starting, please wait...", now⟩
  | some cur =>
    ⟨stageValue cur.stage, cur.message, cur.progress, cur.details, cur.timestamp⟩

/-- The per-session keep test of `cleanup_old_sessions`: a session is
removed exactly when its history is nonempty and its last entry is
strictly older than the cutoff (`last_update_time < cutoff_time`). -/
def keepSession (cutoff : Int) (p : String × List CVStatusUpdate) : Bool :=
  match p.2.getLast? with
  | none => true
  | some e => !decide (e.timestamp < cutoff)

/-- `CVStatusManager.cleanup_old_sessions`: delete every session whose
(nonempty) history has its last entry strictly older than
`now - max_age_hours * 3600`; sessions with empty histories are kept. -/
def cleanup_old_sessions (st : Storage) (maxAgeHours now : Int) : Storage :=
  st.filter (keepSession (now - maxAgeHours * 3600))

/-- Replay a list of `(stage, details, time)` record calls on one session,
returning the final storage and the list of returned status updates. -/
def runUpdates : Storage → String → List (CVProcessingStage × String × Int) →
    Storage × List CVStatusUpdate
  | st, _, [] => (st, [])
  | st, sid, (stg, det, t) :: rest =>
    let r := update_status st sid stg det t
    let rr := runUpdates r.1 sid rest
    (rr.1, r.2 :: rr.2)

/-- Position of each stage in the ordered happy-path enumeration
(`ERROR` sits after every other stage, as the absorbing branch). -/
def stageIdx : CVProcessingStage → Nat
  | upload_started => 0
  | file_validation => 1
  | guardrail_validation => 2
  | file_preparation => 3
  | openai_upload => 4
  | cv_parsing => 5
  | profile_enrichment => 6
  | skills_extraction => 7
  | gap_analysis => 8
  | finalizing => 9
  | completed => 10
  | error => 11

/-- The ordered happy-path stage sequence from the spec. -/
def happyPath : List CVProcessingStage :=
  [upload_started, file_validation, guardrail_validation, file_preparation,
    openai_upload, cv_parsing, profile_enrichment, skills_extraction,
    gap_analysis, finalizing, completed]

/-! ### Basic storage lemmas -/

theorem lookupHistory_setHistory (st : Storage) (sid : String)
    (hist : List CVStatusUpdate) :
    lookupHistory (setHistory st sid hist) sid = some hist := by
  induction st with
  | nil => simp [lookupHistory, setHistory, alistLookup]
  | cons p rest ih =>
    obtain ⟨k, v⟩ := p
    by_cases hk : k = sid
    · simp [lookupHistory, setHistory, alistLookup, hk]
    · simpa [lookupHistory, setHistory, alistLookup, hk] using ih

theorem trimTo20_eq_drop (l : List CVStatusUpdate) :
    trimTo20 l = l.drop (l.length - 20) := by
  by_cases h : l.length > 20
  · simp [trimTo20, h]
  · have h0 : l.length - 20 = 0 := by omega
    simp [trimTo20, h, h0]

theorem length_trimTo20 (l : List CVStatusUpdate) : (trimTo20 l).length ≤ 20 := by
  rw [trimTo20_eq_drop, List.length_drop]
  omega

theorem getLast?_trimTo20_concat (l : List CVStatusUpdate) (a : CVStatusUpdate) :
    (trimTo20 (l ++ [a])).getLast? = some a := by
  rw [trimTo20_eq_drop, List.drop_append_eq_append_drop]
  have h1 : (l ++ [a]).length - 20 - l.length = 0 := by
    simp only [List.length_append, List.length_cons, List.length_nil]
    omega
  rw [h1]
  simp

theorem lookupHistory_eq_none_of_not_mem (st : Storage) (sid : String)
    (h : sid ∉ st.map Prod.fst) : lookupHistory st sid = none := by
  induction st with
  | nil => rfl
  | cons q rest ih =>
    obtain ⟨k, v⟩ := q
    simp only [List.map_cons, List.mem_cons] at h
    push_neg at h
    have hk : ¬(k = sid) := fun hkk => h.1 hkk.symm
    simpa [lookupHistory, alistLookup, hk] using ih h.2

theorem lookupHistory_filter_eq_none (st : Storage) (sid : String)
    (p : String × List CVStatusUpdate → Bool)
    (h : lookupHistory st sid = none) :
    lookupHistory (st.filter p) sid = none := by
  induction st with
  | nil => rfl
  | cons q rest ih =>
    obtain ⟨k, v⟩ := q
    by_cases hk : k = sid
    · simp [lookupHistory, alistLookup, hk] at h
    · have h2 : lookupHistory rest sid = none := by
        simpa [lookupHistory, alistLookup, hk] using h
      by_cases hp : p (k, v)
      · simpa [List.filter_cons, hp, lookupHistory, alistLookup, hk] using ih h2
      · simpa [List.filter_cons, hp] using ih h2

/-! ## Claim theorems about the status store -/

/-- C2: for every session id unknown to the status store (absent key or
empty history, i.e. `get_current_status` yields `none` — which covers a
client polling before the first update is recorded),
`get_status_for_frontend` returns the synthesized default status: stage
string `"upload_started"`, progress `5`, the default message and details.
The function is total, so no not-found error can propagate. -/
theorem C2_unknown_session_default (st : Storage) (sid : String) (now : Int)
    (h : get_current_status st sid = none) :
    get_status_for_frontend st sid now =
        ⟨"upload_started", "Starting CV upload...", 5,
          "Processing is starting, please wait...", now⟩ ∧
    (get_status_for_frontend st sid now).progress = 5 ∧
    (get_status_for_frontend st sid now).status = "upload_started" := by
  have heq : get_status_for_frontend st sid now =
      ⟨"upload_started", "Starting CV upload...", 5,
        "Processing is starting, please wait...", now⟩ := by
    unfold get_status_for_frontend
    rw [h]
  exact ⟨heq, by rw [heq], by rw [heq]⟩

/-- Closed witness for C2: polling an empty store returns the default. -/
theorem C2_unknown_session_default_witness :
    get_status_for_frontend [] "cv_1736899200000_000000" 0 =
        ⟨"upload_started", "Starting CV upload...", 5,
          "Processing is starting, please wait...", 0⟩ ∧
    (get_status_for_frontend [] "cv_1736899200000_000000" 0).progress = 5 ∧
    (get_status_for_frontend [] "cv_1736899200000_000000" 0).status =
      "upload_started" :=
  C2_unknown_session_default [] "cv_1736899200000_000000" 0 rfl

/-- C5: after any `update_status` call, (a) the stored history of the
session has at most 20 entries, (b) the new history is exactly the old
history with the new update appended and then the oldest entries dropped
(so trimming discards only the oldest entries), and (c)
`get_current_status` reads back exactly the update just recorded. -/
theorem C5_history_bounded_and_current (st : Storage) (sid : String)
    (stage : CVProcessingStage) (details : String) (now : Int) :
    (((lookupHistory (update_status st sid stage details now).1 sid).getD []).length ≤ 20) ∧
    lookupHistory (update_status st sid stage details now).1 sid =
      some ((((lookupHistory st sid).getD []) ++ [(update_status st sid stage details now).2]).drop
        ((((lookupHistory st sid).getD []) ++ [(update_status st sid stage details now).2]).length - 20)) ∧
    get_current_status (update_status st sid stage details now).1 sid =
      some (update_status st sid stage details now).2 := by
  refine ⟨?_, ?_, ?_⟩
  · rw [update_status, lookupHistory_setHistory]
    simpa using length_trimTo20 _
  · rw [update_status, lookupHistory_setHistory, trimTo20_eq_drop]
  · rw [get_current_status, update_status, lookupHistory_setHistory]
    exact getLast?_trimTo20_concat _ _

/-! ## C6: progress monotonicity -/

theorem runUpdates_map_progress (calls : List (CVProcessingStage × String × Int))
    (st : Storage) (sid : String) :
    ((runUpdates st sid calls).2).map (fun u => u.progress) =
      calls.map (fun c => stageProgress c.1) := by
  induction calls generalizing st with
  | nil => rfl
  | cons c rest ih =>
    obtain ⟨stg, det, t⟩ := c
    simp [runUpdates, update_status, ih]

theorem stageProgress_mono_of_stageIdx_le (a b : CVProcessingStage)
    (ha : a ≠ CVProcessingStage.error) (hb : b ≠ CVProcessingStage.error)
    (h : stageIdx a ≤ stageIdx b) : stageProgress a ≤ stageProgress b := by
  cases a <;> cases b <;> simp_all [stageIdx, stageProgress]

theorem chain'_progress_of_ordered (l : List CVProcessingStage)
    (h : List.Chain' (fun a b => stageIdx a ≤ stageIdx b) l)
    (hm : ∀ x ∈ l, x ≠ CVProcessingStage.error) :
    List.Chain' (fun a b : Nat => a ≤ b) (l.map stageProgress) := by
  induction l with
  | nil => simp
  | cons a t ih =>
    cases t with
    | nil => simp
    | cons b t2 =>
      rw [List.chain'_cons] at h
      have tail := ih h.2 (fun x hx => hm x (List.mem_cons_of_mem _ hx))
      simp only [List.map_cons] at tail ⊢
      rw [List.chain'_cons]
      refine ⟨stageProgress_mono_of_stageIdx_le a b ?_ ?_ h.1, tail⟩
      · exact hm a (by simp)
      · exact hm b (by simp)

/-- C6 as stated is false on the code: `update_status` imposes no order
on recorded stages, so a record sequence `COMPLETED` then
`FILE_VALIDATION` (no `ERROR` anywhere) yields returned progress values
`[100, 10]`, which are not non-decreasing. -/
theorem C6_counterexample :
    ((runUpdates [] "s" [(CVProcessingStage.completed, "", 0),
        (CVProcessingStage.file_validation, "", 1)]).2).map (fun u => u.progress) =
      [100, 10] ∧
    ¬ List.Chain' (fun a b : Nat => a ≤ b)
      (((runUpdates [] "s" [(CVProcessingStage.completed, "", 0),
          (CVProcessingStage.file_validation, "", 1)]).2).map (fun u => u.progress)) ∧
    CVProcessingStage.error ∉
      [CVProcessingStage.completed, CVProcessingStage.file_validation] := by
  refine ⟨rfl, ?_, by decide⟩
  show ¬ List.Chain' (fun a b : Nat => a ≤ b) [100, 10]
  simp [List.chain'_cons]

/-- C6 (amended): every status update returned by `update_status` takes
its progress from the static stage table, and that table is strictly
increasing (5 up to 100) along the ordered happy-path stage sequence;
consequently, for every sequence of record calls on one session whose
stages follow the stage order and contain no `ERROR`, the returned
progress values are non-decreasing. -/
theorem C6_amended_progress_monotone (st : Storage) (sid : String)
    (calls : List (CVProcessingStage × String × Int))
    (hord : List.Chain' (fun a b => stageIdx a ≤ stageIdx b)
      (calls.map (fun c => c.1)))
    (herr : ∀ c ∈ calls, c.1 ≠ CVProcessingStage.error) :
    List.Chain' (fun a b : Nat => a ≤ b)
      (((runUpdates st sid calls).2).map (fun u => u.progress)) ∧
    List.Chain' (fun a b : Nat => a < b) (happyPath.map stageProgress) := by
  constructor
  · rw [runUpdates_map_progress]
    have hmm : calls.map (fun c => stageProgress c.1) =
        (calls.map (fun c => c.1)).map stageProgress := by
      simp [List.map_map]
    rw [hmm]
    refine chain'_progress_of_ordered _ hord ?_
    intro x hx
    obtain ⟨c, hc, rfl⟩ := List.mem_map.mp hx
    exact herr c hc
  · simp [happyPath, List.chain'_cons, stageProgress]

/-- Closed witness for the amended C6 at an in-order record sequence. -/
theorem C6_amended_progress_monotone_witness :
    List.Chain' (fun a b : Nat => a ≤ b)
      (((runUpdates [] "s" [(CVProcessingStage.upload_started, "", 0),
          (CVProcessingStage.cv_parsing, "", 1),
          (CVProcessingStage.completed, "", 2)]).2).map (fun u => u.progress)) ∧
    List.Chain' (fun a b : Nat => a < b) (happyPath.map stageProgress) :=
  C6_amended_progress_monotone [] "s" _
    (by simp [List.chain'_cons, stageIdx]) (by decide)

/-! ## C7: age-based sweep -/

/-- C7: `cleanup_old_sessions` deletes exactly the sessions whose most
recent entry is strictly older than the cutoff `now - max_age_hours*3600`,
and retains — with identical history — every session whose most recent
entry is at or after the cutoff.  The `Nodup` hypothesis is the Python
dict invariant (unique keys). -/
theorem C7_cleanup_exact (st : Storage) (maxAgeHours now : Int) (sid : String)
    (l : List CVStatusUpdate) (e : CVStatusUpdate)
    (hnodup : (st.map Prod.fst).Nodup)
    (hl : lookupHistory st sid = some l)
    (hlast : l.getLast? = some e) :
    lookupHistory (cleanup_old_sessions st maxAgeHours now) sid =
      if e.timestamp < now - maxAgeHours * 3600 then none else some l := by
  induction st with
  | nil => simp [lookupHistory, alistLookup] at hl
  | cons q rest ih =>
    obtain ⟨k, v⟩ := q
    simp only [List.map_cons, List.nodup_cons] at hnodup
    by_cases hk : k = sid
    · have hv : v = l := by
        have := hl
        simp only [lookupHistory, alistLookup, hk, if_pos] at this
        exact Option.some.inj this
      subst hv
      subst hk
      by_cases hex : e.timestamp < now - maxAgeHours * 3600
      · have hkeep : keepSession (now - maxAgeHours * 3600) (k, v) = false := by
          simp [keepSession, hlast, hex]
        rw [cleanup_old_sessions, List.filter_cons, hkeep]
        simp only [hex, if_pos]
        exact lookupHistory_filter_eq_none rest k _
          (lookupHistory_eq_none_of_not_mem rest k hnodup.1)
      · have hkeep : keepSession (now - maxAgeHours * 3600) (k, v) = true := by
          simp [keepSession, hlast, hex]
        rw [cleanup_old_sessions, List.filter_cons, hkeep]
        simp [lookupHistory, alistLookup, hex]
    · have h2 : lookupHistory rest sid = some l := by
        simpa [lookupHistory, alistLookup, hk] using hl
      have htail := ih hnodup.2 h2
      by_cases hp : keepSession (now - maxAgeHours * 3600) (k, v)
      · rw [cleanup_old_sessions, List.filter_cons, if_pos hp]
        simpa [lookupHistory, alistLookup, hk] using htail
      · rw [cleanup_old_sessions, List.filter_cons, if_neg hp]
        exact htail

/-- Demo clock for the sweep scenario (seconds). -/
def demoNow : Int := 1000000

/-- Session entry last updated 25 hours before `demoNow`. -/
def demoOldEntry : CVStatusUpdate :=
  ⟨CVProcessingStage.completed, stageMessage CVProcessingStage.completed, 100, "",
    demoNow - 25 * 3600⟩

/-- Session entry last updated 1 hour before `demoNow`. -/
def demoFreshEntry : CVStatusUpdate :=
  ⟨CVProcessingStage.cv_parsing, stageMessage CVProcessingStage.cv_parsing, 50, "",
    demoNow - 3600⟩

/-- Two-session store for the sweep scenario. -/
def demoStore : Storage := [("old", [demoOldEntry]), ("fresh", [demoFreshEntry])]

/-- Closed witness for C7: with `max_age = 24h`, the session last updated
25 hours ago is gone after the sweep and the one updated 1 hour ago is
retained unchanged. -/
theorem C7_cleanup_exact_witness :
    lookupHistory (cleanup_old_sessions demoStore 24 demoNow) "old" = none ∧
    lookupHistory (cleanup_old_sessions demoStore 24 demoNow) "fresh" =
      some [demoFreshEntry] := by
  constructor
  · have h := C7_cleanup_exact demoStore 24 demoNow "old" [demoOldEntry]
      demoOldEntry (by decide) rfl rfl
    rw [h]
    norm_num [demoOldEntry, demoNow]
  · have h := C7_cleanup_exact demoStore 24 demoNow "fresh" [demoFreshEntry]
      demoFreshEntry (by decide) rfl rfl
    rw [h]
    norm_num [demoFreshEntry, demoNow]

/-! ## Event bus client (`nats_service.py`) -/

/-- Whether an external call outcome is a success. -/
def exceptOk {α : Type} (r : Except String α) : Bool :=
  match r with
  | .ok _ => true
  | .error _ => false

/-- The body of `NATSService.publish_event` inside its outer `try`.
`jsSend` models the JetStream `js.publish` call, `coreSend` the core
`nc.publish` call; an `.error` value models that call raising.  When
`persistent` is set, a JetStream failure is caught by the inner `except`
and the core send is attempted as fallback; a failure of that fallback
(or of a non-persistent send) propagates to the outer handler. -/
def publish_event_body (persistent : Bool)
    (jsSend coreSend : Except String Unit) : Except String Bool :=
  if persistent then
    match jsSend with
    | .ok _ => .ok true
    | .error _ =>
      match coreSend with
      | .ok _ => .ok true
      | .error e => .error e
  else
    match coreSend with
    | .ok _ => .ok true
    | .error e => .error e

/-- `NATSService.publish_event`: the outer `except` converts any
transport failure into a `false` return, so the caller never sees an
exception (the function is total and returns `Bool`). -/
def publish_event (persistent : Bool)
    (jsSend coreSend : Except String Unit) : Bool :=
  match publish_event_body persistent jsSend coreSend with
  | .ok b => b
  | .error _ => false

/-- The body of `NATSService.request_response` inside its `try`.
`req` models `nc.request`: `.error` is a raised timeout/transport error,
`.ok none` a response whose `data` is falsy, `.ok (some d)` a reply with
payload `d`.  `jsonLoads` models `json.loads` on the reply bytes. -/
def request_response_body (req : Except String (Option String))
    (jsonLoads : String → Except String String) :
    Except String (Option String) :=
  match req with
  | .error e => .error e
  | .ok none => .ok none
  | .ok (some d) =>
    match jsonLoads d with
    | .ok v => .ok (some v)
    | .error e => .error e

/-- `NATSService.request_response`: the `except` handler converts any
raised error into a `none` return, so the caller never sees an
exception. -/
def request_response (req : Except String (Option String))
    (jsonLoads : String → Except String String) : Option String :=
  match request_response_body req jsonLoads with
  | .ok r => r
  | .error _ => none

/-- C1: with `persistent = true`, `publish_event` returns `true` exactly
when the JetStream send or the fallback core send succeeds, and `false`
only when both fail; being a total `Bool`-valued function of the two
transport outcomes, it never propagates a transport exception. -/
theorem C1_publish_persistent_fallback (jsSend coreSend : Except String Unit) :
    publish_event true jsSend coreSend = (exceptOk jsSend || exceptOk coreSend) := by
  cases jsSend <;> cases coreSend <;> rfl

/-- C8: `request_response` returns the decoded reply when a reply with
data arrives and decodes, and `none` — never an exception — on a raised
timeout/transport error, on an empty reply, or on a decode failure. -/
theorem C8_request_response_none_on_error
    (req : Except String (Option String))
    (jsonLoads : String → Except String String) :
    (∀ e, req = .error e → request_response req jsonLoads = none) ∧
    (req = .ok none → request_response req jsonLoads = none) ∧
    (∀ d v, req = .ok (some d) → jsonLoads d = .ok v →
      request_response req jsonLoads = some v) ∧
    (∀ d e, req = .ok (some d) → jsonLoads d = .error e →
      request_response req jsonLoads = none) := by
  refine ⟨?_, ?_, ?_, ?_⟩
  · rintro e rfl
    rfl
  · rintro rfl
    rfl
  · rintro d v rfl hd
    simp [request_response, request_response_body, hd]
  · rintro d e rfl hd
    simp [request_response, request_response_body, hd]

/-- Closed witness for C8: a raised timeout yields `none`, and a
well-formed reply yields its decoded payload. -/
theorem C8_request_response_none_on_error_witness :
    request_response (Except.error "nats: timeout") (fun s => Except.ok s) = none ∧
    request_response (Except.ok (some "{}")) (fun s => Except.ok s) = some "{}" := by
  constructor
  · exact (C8_request_response_none_on_error (Except.error "nats: timeout")
      (fun s => Except.ok s)).1 "nats: timeout" rfl
  · exact (C8_request_response_none_on_error (Except.ok (some "{}"))
      (fun s => Except.ok s)).2.2.1 "{}" "{}" rfl rfl

/-! ## Connection manager (`core/nats.py`) -/

/-- The per-stream `add_stream` loop of `_setup_streams`: every
`add_stream` exception is caught and logged per stream ("stream might
already exist ... that's OK"), so the loop never raises. -/
def streamsLoop : List (Except String Unit) → Except String Unit
  | [] => .ok ()
  | r :: rs =>
    match r with
    | .ok _ => streamsLoop rs
    | .error _ => streamsLoop rs

/-- `NATSConnection._setup_streams`: first probes JetStream with
`account_info`; if that raises, stream setup is skipped without raising;
otherwise each stream is created with per-stream error swallowing. -/
def setup_streams (accountInfo : Except String Unit)
    (addStream : List (Except String Unit)) : Except String Unit :=
  match accountInfo with
  | .error _ => .ok ()
  | .ok _ => streamsLoop addStream

/-- Connection-manager state after `connect` (the `connected` flag). -/
structure NATSConnState where
  connected : Bool
  deriving DecidableEq, Repr

/-- `NATSConnection.connect`: `transport` models `nc.connect` (raising on
failure after the retry budget), then `_setup_streams` runs, then
`connected` is set; the outer `except` logs and re-raises, so a raised
transport error propagates unchanged. -/
def NATSConnection.connect (transport accountInfo : Except String Unit)
    (addStream : List (Except String Unit)) : Except String NATSConnState :=
  match transport with
  | .error e => .error e
  | .ok _ =>
    match setup_streams accountInfo addStream with
    | .error e => .error e
    | .ok _ => .ok ⟨true⟩

theorem streamsLoop_never_raises (rs : List (Except String Unit)) :
    streamsLoop rs = .ok () := by
  induction rs with
  | nil => rfl
  | cons r rest ih => cases r <;> simpa [streamsLoop] using ih

theorem setup_streams_never_raises (accountInfo : Except String Unit)
    (addStream : List (Except String Unit)) :
    setup_streams accountInfo addStream = .ok () := by
  cases accountInfo with
  | error e => rfl
  | ok u => simpa [setup_streams] using streamsLoop_never_raises addStream

/-- C9: when the transport connection succeeds, `connect` completes
successfully with `connected = true` no matter how the persistence
provisioning probes turn out (JetStream absent, stream creation failing,
or both), and `connect` fails exactly when the transport connection
itself raised. -/
theorem C9_connect_degraded_mode :
    (∀ (accountInfo : Except String Unit) (addStream : List (Except String Unit)),
      NATSConnection.connect (.ok ()) accountInfo addStream = .ok ⟨true⟩) ∧
    (∀ (e : String) (accountInfo : Except String Unit)
        (addStream : List (Except String Unit)),
      NATSConnection.connect (.error e) accountInfo addStream = .error e) := by
  constructor
  · intro accountInfo addStream
    rw [NATSConnection.connect, setup_streams_never_raises]
  · intro e accountInfo addStream
    rfl

/-! ## Health probe (`api/v1/nats.py`) -/

/-- JSON-ish values for the health endpoint response dict. -/
inductive JVal
  | s (v : String)
  | b (v : Bool)
  | jnull
  | obj (fields : List (String × JVal))

/-- The NATS client state visible to the health endpoint. -/
structure ClientState where
  is_connected : Bool
  connected_url : Option String

/-- The "disconnected" response dict of `nats_health_check`. -/
def disconnectedResp : List (String × JVal) :=
  [("status", .s "disconnected"),
    ("connected", .b false),
    ("message", .s "NATS client not initialized or connection failed during startup."),
    ("server_info", .jnull)]

/-- `nats_health_check`: `client` models the `get_nats_safe` dependency
(`none` when not connected at startup); `ping` models the
`nc.publish("health.ping", ...)` connectivity test, whose failure lands
in the `except` branch.  Returns the JSON response dict. -/
def nats_health_check (client : Option ClientState)
    (ping : Except String Unit) : List (String × JVal) :=
  match client with
  | none => disconnectedResp
  | some c =>
    if c.is_connected then
      match ping with
      | .ok _ =>
        [("status", .s "healthy"),
          ("connected", .b true),
          ("server_info", .obj
            [("connected_url",
                match c.connected_url with
                | some u => .s u
                | none => .jnull),
              ("is_connected", .b c.is_connected)])]
      | .error e =>
        [("status", .s "error"),
          ("connected", .b c.is_connected),
          ("message", .s ("NATS health check failed: " ++ e)),
          ("server_info", .jnull)]
    else disconnectedResp

/-- The `connected` boolean the endpoint derives from the client state. -/
def connFlag (client : Option ClientState) : Bool :=
  match client with
  | none => false
  | some c => c.is_connected

/-- C10 is false as stated: at a concrete connection-manager state the
health probe's response carries only the keys `status`, `connected`,
`message`, `server_info` — there is no `persistenceAvailable` boolean in
the response. -/
theorem C10_counterexample :
    (nats_health_check none (Except.ok ())).map Prod.fst =
      ["status", "connected", "message", "server_info"] ∧
    alistLookup (nats_health_check none (Except.ok ())) "persistenceAvailable" =
      none := by
  constructor <;> rfl

/-- C10 (amended): in every state, the health probe's response reports a
`connected` boolean derived from the connection-manager state, but it
reports no `persistenceAvailable` boolean at all; independently, when the
messaging server lacks the persistence capability, `publish` with
`persistent = true` still returns `true` via the core-NATS fallback. -/
theorem C10_amended_health_fields (client : Option ClientState)
    (ping : Except String Unit) :
    alistLookup (nats_health_check client ping) "connected" =
      some (.b (connFlag client)) ∧
    alistLookup (nats_health_check client ping) "persistenceAvailable" = none ∧
    (∀ e : String, publish_event true (.error e) (.ok ()) = true) := by
  refine ⟨?_, ?_, fun e => rfl⟩
  · match client with
    | none => rfl
    | some c =>
      by_cases hc : c.is_connected
      · cases ping <;> simp [nats_health_check, connFlag, hc, disconnectedResp, alistLookup]
      · simp [nats_health_check, connFlag, hc, disconnectedResp, alistLookup]
  · match client with
    | none => rfl
    | some c =>
      by_cases hc : c.is_connected
      · cases ping <;> simp [nats_health_check, hc, disconnectedResp, alistLookup]
      · simp [nats_health_check, hc, disconnectedResp, alistLookup]

/-! ## Admission guardrail (`app_agents/cv_agents.py`) -/

/-- Byte-wise lowercase of a string (Python `str.lower()` on the ASCII
indicator alphabet used here). -/
def strLower (s : String) : String := s.map Char.toLower

/-- `needle` is a leading segment of `hay` (character lists). -/
def charsStartsWith : List Char → List Char → Bool
  | [], _ => true
  | _ :: _, [] => false
  | a :: as, b :: bs => a == b && charsStartsWith as bs

/-- Python substring test `needle in hay` on character lists. -/
def charsContainsSub (needle : List Char) : List Char → Bool
  | [] => needle.isEmpty
  | c :: rest => charsStartsWith needle (c :: rest) || charsContainsSub needle rest

/-- Python `needle in hay` for strings. -/
def strContainsSub (hay needle : String) : Bool :=
  charsContainsSub needle.data hay.data

/-- The `obvious_cv_indicators` list of `cv_validation_guardrail`. -/
def obvious_cv_indicators : List String :=
  [".pdf", ".doc", ".docx", "cv", "resume", "curriculum vitae",
    "process this cv", "cv file", "resume file", "tmp", "temp"]

/-- `any(indicator in input_str for indicator in obvious_cv_indicators)`
with `input_str = str(input_data).lower()`. -/
def has_cv_indicators (input : String) : Bool :=
  obvious_cv_indicators.any fun ind => strContainsSub (strLower input) ind

/-- The `CVValidationResult` model returned by the guardrail agent.
Confidence scores are exact rationals (0.6, 0.7, ...). -/
structure CVValidationResult where
  is_valid_cv : Bool
  confidence_score : ℚ
  document_type : String
  validation_notes : String
  recommended_action : String

/-- The SDK `GuardrailFunctionOutput` as far as admission is concerned. -/
structure GuardrailFunctionOutput where
  output_info : CVValidationResult
  tripwire_triggered : Bool

/-- The permissive result built when no CV indicator is found in the
input ("File path detected - assuming CV processing"). -/
def fallbackNoIndicators : CVValidationResult :=
  ⟨true, 7/10, "cv", "File path detected - assuming CV processing", "process"⟩

/-- The permissive result built in the `except` handler when the
validation mechanism itself raises. -/
def guardrailErrFallback (e : String) : CVValidationResult :=
  ⟨true, 6/10, "unknown", "Validation error - defaulting to allow: " ++ e,
    "process"⟩

/-- `validation_passed = is_valid_cv and confidence_score >= 0.6`. -/
def validationPassed (r : CVValidationResult) : Bool :=
  r.is_valid_cv && decide ((6 : ℚ)/10 ≤ r.confidence_score)

/-- `cv_validation_guardrail` from `app_agents/cv_agents.py` (the gate
wired into `freelancer_profile_manager`): when the input has CV
indicators the guardrail agent is run (`agentRun`, `.error` modelling a
raised exception); otherwise a permissive fallback result is used.  The
surrounding `try/except` converts any raised error into the permissive
fallback with the tripwire NOT triggered. -/
def cv_validation_guardrail (input : String)
    (agentRun : Except String CVValidationResult) : GuardrailFunctionOutput :=
  match (if has_cv_indicators input then agentRun
         else .ok fallbackNoIndicators) with
  | .ok final_output => ⟨final_output, !validationPassed final_output⟩
  | .error e => ⟨guardrailErrFallback e, false⟩

/-- C4: whenever the admission-gate evaluation itself raises (modelled by
`agentRun = .error e`), the gate completes with the tripwire not
triggered — a classification-mechanism error never rejects the job. -/
theorem C4_guardrail_error_admits (input e : String) :
    (cv_validation_guardrail input (Except.error e)).tripwire_triggered = false := by
  rw [cv_validation_guardrail]
  by_cases h : has_cv_indicators input
  · simp [h]
  · simp [h, validationPassed, fallbackNoIndicators]
    norm_num

/-! ## Upload service (`services/cv_service.py`) -/

/-- `ALLOWED_FILE_TYPES` from `core/config.py`. -/
def ALLOWED_FILE_TYPES : List String :=
  ["application/pdf", "application/msword",
    "application/vnd.openxmlformats-officedocument.wordprocessingml.document"]

/-- `MAX_FILE_SIZE` from `core/config.py` (10MB). -/
def MAX_FILE_SIZE : Nat := 10 * 1024 * 1024

/-- `CVUploadResponse` from `schemas/cv_schemas.py`; `session_id`
defaults to `None` and `CVService.upload_cv` never sets it. -/
structure CVUploadResponse where
  message : String
  filename : String
  size : Nat
  agent_feedback : String
  processing_status : String
  session_id : Option String
  deriving DecidableEq, Repr

/-- A FastAPI `HTTPException` (status code and detail). -/
structure HTTPError where
  status_code : Nat
  detail : String
  deriving DecidableEq, Repr

/-- `CVService.upload_cv` as it stands in `services/cv_service.py`:
validates type and size, stores the file, runs the agent system
synchronously (`agentRun`; `.error` models a raised agent exception) and
returns a `CVUploadResponse`.  It mints no session id, records nothing in
the status store, and its success status is `"completed"`. -/
def upload_cv (content_type filename : String) (fileSize : Nat)
    (agentRun : Except String String) : Except HTTPError CVUploadResponse :=
  if content_type ∉ ALLOWED_FILE_TYPES then
    .error ⟨400, "Only PDF and Word documents are allowed"⟩
  else if fileSize > MAX_FILE_SIZE then
    .error ⟨400, "File size exceeds 10MB limit"⟩
  else
    match agentRun with
    | .ok agent_response =>
      .ok ⟨"CV uploaded and analyzed successfully! Our AI has processed your CV.",
        filename, fileSize, agent_response, "completed", none⟩
    | .error agent_error =>
      if strContainsSub (strLower agent_error) "guardrail" ||
          strContainsSub (strLower agent_error) "tripwire" then
        .ok ⟨"File uploaded successfully, but our AI determined this may not be a standard CV format. We'll review it manually.",
          filename, fileSize,
          "Our AI analysis suggests this document may not follow standard CV/resume format. Manual review recommended.",
          "needs_review", none⟩
      else
        .ok ⟨"File uploaded successfully, but our AI analysis encountered an issue. We'll review it manually.",
          filename, fileSize,
          "AI processing error: " ++ (agent_error.take 200) ++ "...",
          "manual_review", none⟩

/-- C3 fails on the code as committed: for a successful submission (a
valid 2MB `resume.pdf` whose agent run succeeds), `upload_cv` returns
`processing_status = "completed"` — not `"processing_started"` — and a
`session_id` of `none`: no session identifier is minted and nothing is
recorded in the status store (the function does not touch `Storage` at
all), contradicting the repository's own tests
(`tests/test_api.py` asserts `session_id` present and
`processing_status == "processing_started"`) and its caller
(`api/v1/cv.py` passes `background_tasks`, which this signature does not
accept). -/
theorem C3_code_eval_no_session :
    (upload_cv "application/pdf" "resume.pdf" 2097152
        (Except.ok "CV processed successfully by agents")).map
      (fun r => (r.processing_status, r.session_id)) =
      Except.ok ("completed", (none : Option String)) := by
  rfl
